import Mathlib

/-!
Shallow embedding of the RecoilEngine .NET AI-interface bridge:
`src/AI/Wrappers/DotNet/src/native/DotNetExport.cpp`,
`src/AI/Wrappers/DotNet/src/native/DotNetInterface.h` and
`src/AI/Wrappers/DotNet/FSharp-Recoil-Wrapper/native/SpringAIWrapperInterface.cpp`
(plus the spatial-query stub library in the same file).

C `int` ids and return codes are modelled as `Int`; C strings as `String`;
`std::map<int, AIInfo>` as a key-sorted association list (`Registry`);
C `float` as Lean `Float` (only control flow, never numeric values, is
reasoned about); `void*` handles as `Option Unit` (null / non-null).
-/

set_option autoImplicit false

namespace DotNetBridge

/-- Mirrors `struct AIInfo` in `DotNetInterface.h`: per-instance record kept
in `loadedAIs`. The `dotnetHandle` (`void*`) is modelled as `Option Unit`. -/
structure AIInfo where
  shortName : String
  version : String
  assemblyPath : String
  dotnetHandle : Option Unit
deriving DecidableEq

/-- Model of `std::map<int, AIInfo> loadedAIs`: association list ordered by key
(the operations below preserve the ordering invariant the way `std::map` does). -/
abbrev Registry := List (Int × AIInfo)

/-- Model of `loadedAIs.find(key)`: first entry with the given key, if any. -/
def Registry.find? : Registry → Int → Option AIInfo
  | [], _ => none
  | (k, v) :: t, key => if key = k then some v else Registry.find? t key

/-- Model of `loadedAIs[key] = value` (`std::map::operator[]`): insert in key
order, overwriting an existing entry with the same key. -/
def Registry.insert : Registry → Int → AIInfo → Registry
  | [], key, value => [(key, value)]
  | (k, v) :: t, key, value =>
    if key < k then (key, value) :: (k, v) :: t
    else if key = k then (key, value) :: t
    else (k, v) :: Registry.insert t key value

/-- Model of `loadedAIs.erase(it)` for the iterator found at `key`: remove the
first entry with that key. -/
def Registry.erase : Registry → Int → Registry
  | [], _ => []
  | (k, v) :: t, key => if key = k then t else (k, v) :: Registry.erase t key

/-- State of one `CDotNetInterface` object (data members in
`DotNetInterface.h`): the interface id, the instance registry, and the
.NET-runtime fields. The host callback pointer carries no bridge-visible
state and is not modelled. -/
structure CDotNetInterface where
  interfaceId : Int
  loadedAIs : Registry
  dotnetRuntimeLoaded : Bool
  dotnetRuntimeHandle : Option Unit
deriving DecidableEq

/-- Mirrors `CDotNetInterface::FindAIAssembly` in
`SpringAIWrapperInterface.cpp` (lines 264-268): the body ignores both
arguments and returns the placeholder path (its own comment reads
"TODO: Implement proper AI assembly discovery / For now, return a
placeholder path"). -/
def FindAIAssembly (shortName : String) (version : String) : String :=
  "SpringAI.Wrapper.dll"

/-- Mirrors `CDotNetInterface::CreateAIInstance` (lines 218-243): reject an
id already present with `-1`; resolve the assembly, `-2` if the path is
empty; otherwise build an `AIInfo` (null handle) and insert it. Returns the
C return code and the updated object state. -/
def CreateAIInstance (st : CDotNetInterface) (skirmishAIId : Int)
    (shortName : String) (version : String) : Int × CDotNetInterface :=
  if (st.loadedAIs.find? skirmishAIId).isSome then
    (-1, st)
  else
    let assemblyPath := FindAIAssembly shortName version
    if assemblyPath = "" then
      (-2, st)
    else
      let aiInfo : AIInfo :=
        { shortName := shortName, version := version
          assemblyPath := assemblyPath, dotnetHandle := none }
      (0, { st with loadedAIs := st.loadedAIs.insert skirmishAIId aiInfo })

/-- Mirrors `CDotNetInterface::DestroyAIInstance` (lines 245-262): `-1` when
the id is absent; otherwise erase the entry and return `0`. -/
def DestroyAIInstance (st : CDotNetInterface) (skirmishAIId : Int) :
    Int × CDotNetInterface :=
  match st.loadedAIs.find? skirmishAIId with
  | none => (-1, st)
  | some _ => (0, { st with loadedAIs := st.loadedAIs.erase skirmishAIId })

/-- Mirrors `CDotNetInterface::UnloadSkirmishAILibrary` (lines 146-153): the
body only returns `0`; no state is touched. -/
def UnloadSkirmishAILibrary (st : CDotNetInterface)
    (shortName : String) (version : String) : Int × CDotNetInterface :=
  (0, st)

/-- Mirrors `CDotNetInterface::UnloadAllSkirmishAILibraries` (lines 155-162):
`for (auto and pair : loadedAIs) DestroyAIInstance(pair.first); loadedAIs.clear(); return 0;`.
The C++ loop erases the current element of the map being iterated
(`DestroyAIInstance` calls `loadedAIs.erase`), which invalidates the hidden
loop iterator; the model resolves the iteration as a fold over the snapshot
of keys taken at loop entry. The trailing `clear()` empties the registry
regardless of which keys the loop visited. -/
def UnloadAllSkirmishAILibraries (st : CDotNetInterface) :
    Int × CDotNetInterface :=
  let keys := st.loadedAIs.map Prod.fst
  let st' := keys.foldl (fun s k => (DestroyAIInstance s k).2) st
  (0, { st' with loadedAIs := [] })

/-- Process-wide state seen by the exported C surface: `g_interface` (the
`std::unique_ptr<CDotNetInterface>` in `DotNetExport.cpp`, kept in sync with
the static singleton `CDotNetInterface::instance` used by the static
callbacks), plus an instrumentation trace of `(skirmishAIId, topicId)` pairs
forwarded into the hosted .NET runtime. The source's `HandleEvent` never
forwards (the forwarding is a TODO), so the trace records exactly the
runtime calls the code performs: none. -/
structure GlobalState where
  gInterface : Option CDotNetInterface
  runtimeCalls : List (Int × Int)
deriving DecidableEq

/-- Modelled from the spec: the `CDotNetInterface` constructor body is not
present under `src/` (only its declaration in `DotNetInterface.h`). Per the
spec, `initStatic` moves the bridge to Active with an empty InstanceRegistry;
the runtime host is not yet started. -/
def CDotNetInterface.initFresh (interfaceId : Int) : CDotNetInterface :=
  { interfaceId := interfaceId, loadedAIs := []
    dotnetRuntimeLoaded := false, dotnetRuntimeHandle := none }

/-- Mirrors `initStatic` in `DotNetExport.cpp` (lines 28-39): `-1` if
`g_interface` is already set, otherwise construct the interface object and
return `0` (the `catch` branch returning `-2` models a throwing constructor
and is unreachable in the model, whose constructor does not fail). -/
def initStatic (g : GlobalState) (interfaceId : Int) : Int × GlobalState :=
  match g.gInterface with
  | some _ => (-1, g)
  | none => (0, { g with gInterface := some (CDotNetInterface.initFresh interfaceId) })

/-- Mirrors `releaseStatic` in `DotNetExport.cpp` (lines 41-48): `-1` if not
initialized, otherwise reset `g_interface` and return `0`. -/
def releaseStatic (g : GlobalState) : Int × GlobalState :=
  match g.gInterface with
  | none => (-1, g)
  | some _ => (0, { g with gInterface := none })

/-- The `enum LevelOfSupport` of the external engine header
`ExternalAI/Interface/ELevelOfSupport.h` (not under `src/`); the bridge code
only ever names `LOS_Working`. -/
inductive LevelOfSupport where
  | LOS_None
  | LOS_Bad
  | LOS_Working
deriving DecidableEq

/-- Mirrors `getLevelOfSupportFor` in `DotNetExport.cpp` (lines 50-59): the
body ignores all four arguments and returns `LOS_Working`. -/
def getLevelOfSupportFor (engineVersionString : String)
    (engineVersionNumber : Int) (aiInterfaceShortName : String)
    (aiInterfaceVersion : String) : LevelOfSupport :=
  LevelOfSupport.LOS_Working

/-- Mirrors the exported `unloadSkirmishAILibrary` (`DotNetExport.cpp` lines
73-82): `-1` when `g_interface` is null, else forward to the member
function. -/
def unloadSkirmishAILibraryExported (g : GlobalState)
    (shortName : String) (version : String) : Int × GlobalState :=
  match g.gInterface with
  | none => (-1, g)
  | some inst =>
    let (code, inst') := UnloadSkirmishAILibrary inst shortName version
    (code, { g with gInterface := some inst' })

/-- Mirrors the exported `unloadAllSkirmishAILibraries` (`DotNetExport.cpp`
lines 84-90): `-1` when `g_interface` is null, else forward to the member
function. -/
def unloadAllSkirmishAILibrariesExported (g : GlobalState) : Int × GlobalState :=
  match g.gInterface with
  | none => (-1, g)
  | some inst =>
    let (code, inst') := UnloadAllSkirmishAILibraries inst
    (code, { g with gInterface := some inst' })

/-- Mirrors the static callback `CDotNetInterface::HandleEvent`
(`SpringAIWrapperInterface.cpp` lines 184-199): `-1` when the singleton is
null; `-2` when `skirmishAIId` is not in `loadedAIs`; `0` otherwise. The
event payload (`const void* data`) is opaque and unused; forwarding into the
.NET runtime is a TODO in the source, so no entry is appended to
`runtimeCalls` in any branch. -/
def HandleEvent (g : GlobalState) (skirmishAIId : Int) (topicId : Int)
    (data : List UInt8) : Int × GlobalState :=
  match g.gInterface with
  | none => (-1, g)
  | some inst =>
    match inst.loadedAIs.find? skirmishAIId with
    | none => (-2, g)
    | some _ => (0, g)

/-- Mirrors the static callback `CDotNetInterface::ReleaseAI`
(`SpringAIWrapperInterface.cpp` lines 176-182): `-1` when the singleton is
null, else `DestroyAIInstance`. -/
def ReleaseAI (g : GlobalState) (skirmishAIId : Int) : Int × GlobalState :=
  match g.gInterface with
  | none => (-1, g)
  | some inst =>
    let (code, inst') := DestroyAIInstance inst skirmishAIId
    (code, { g with gInterface := some inst' })

/-- Mirrors `struct Unit` in `SpringAIWrapperInterface.h`. C `float` fields
are modelled as Lean `Float`; no theorem depends on their numeric values. -/
structure CUnit where
  id : Int
  defId : Int
  x : Float
  y : Float
  z : Float
  health : Float
  maxHealth : Float
  teamId : Int
  state : Int

/-- The loop of `GetUnitsInRadius` (`SpringAIWrapperInterface.cpp` lines
100-112): `for (i = 0; i < unitCount and foundCount < maxResults; i++)`,
appending `unit.id` when the squared distance is within `r2`. The list is
the array contents; the first `Nat` is the remaining loop iterations
(`unitCount - i`), the last the remaining capacity
(`maxResults - foundCount`). The returned list is the sequence of ids
written to `resultIds`, in order. -/
def unitsLoop : List CUnit → Nat → Float → Float → Float → Float → Nat → List Int
  | _, _, _, _, _, _, 0 => []
  | _, 0, _, _, _, _, _ => []
  | [], _, _, _, _, _, _ => []
  | u :: rest, n + 1, cx, cy, cz, r2, m + 1 =>
    let dx := u.x - cx
    let dy := u.y - cy
    let dz := u.z - cz
    let distanceSquared := dx * dx + dy * dy + dz * dz
    if distanceSquared ≤ r2 then
      u.id :: unitsLoop rest n cx cy cz r2 m
    else
      unitsLoop rest n cx cy cz r2 (m + 1)

/-- Mirrors `GetUnitsInRadius` (`SpringAIWrapperInterface.cpp` lines 90-115).
The `allUnits` pointer is `none` when null; `resultIdsPresent` is `false`
when `resultIds` is null. Returns the C return value (`foundCount`) together
with the list of ids written to `resultIds`. -/
def GetUnitsInRadius (allUnits : Option (List CUnit)) (unitCount : Int)
    (centerX : Float) (centerY : Float) (centerZ : Float) (radius : Float)
    (resultIdsPresent : Bool) (maxResults : Int) : Int × List Int :=
  match allUnits with
  | none => (0, [])
  | some units =>
    if resultIdsPresent = false ∨ unitCount ≤ 0 ∨ maxResults ≤ 0 then
      (0, [])
    else
      let radiusSquared := radius * radius
      let written := unitsLoop units unitCount.toNat centerX centerY centerZ
        radiusSquared maxResults.toNat
      ((written.length : Int), written)

/-! Helper lemmas about the registry model. -/

theorem Registry.find?_insert_self (r : Registry) (k : Int) (v : AIInfo) :
    (r.insert k v).find? k = some v := by
  induction r with
  | nil => simp [Registry.insert, Registry.find?]
  | cons p t ih =>
    obtain ⟨k', v'⟩ := p
    by_cases hlt : k < k'
    · simp [Registry.insert, hlt, Registry.find?]
    · by_cases heq : k = k'
      · simp [Registry.insert, hlt, heq, Registry.find?]
      · simp only [Registry.insert, if_neg hlt, if_neg heq]
        rw [Registry.find?, if_neg heq]
        exact ih

theorem Registry.erase_insert_of_not_mem (r : Registry) (k : Int) (v : AIInfo)
    (h : r.find? k = none) : (r.insert k v).erase k = r := by
  induction r with
  | nil => simp [Registry.insert, Registry.erase]
  | cons p t ih =>
    obtain ⟨k', v'⟩ := p
    have hne : ¬ k = k' := by
      intro hk
      rw [Registry.find?, if_pos hk] at h
      exact Option.noConfusion h
    have ht : Registry.find? t k = none := by
      rw [Registry.find?, if_neg hne] at h
      exact h
    by_cases hlt : k < k'
    · simp only [Registry.insert, if_pos hlt]
      rw [Registry.erase, if_pos rfl]
    · simp only [Registry.insert, if_neg hlt, if_neg hne]
      rw [Registry.erase, if_neg hne, ih ht]

theorem UnloadAll_returns_zero_and_clears (st : CDotNetInterface) :
    (UnloadAllSkirmishAILibraries st).1 = 0 ∧
    (UnloadAllSkirmishAILibraries st).2.loadedAIs = [] :=
  ⟨rfl, rfl⟩

theorem unitsLoop_length_le (us : List CUnit) (n : Nat) (cx cy cz r2 : Float)
    (m : Nat) : (unitsLoop us n cx cy cz r2 m).length ≤ min n m := by
  induction us generalizing n m with
  | nil =>
    cases n <;> cases m <;> simp [unitsLoop]
  | cons u rest ih =>
    cases n with
    | zero => cases m <;> simp [unitsLoop]
    | succ n' =>
      cases m with
      | zero => simp [unitsLoop]
      | succ m' =>
        simp only [unitsLoop]
        split
        · have h1 := ih n' m'
          simp only [List.length_cons]
          omega
        · have h1 := ih n' (m' + 1)
          omega

/-! Theorems settling the claims. -/

/-- C2: if `initStatic` has succeeded once and `releaseStatic` has not been
called since (`g_interface` holds a live bridge), every further `initStatic`
call returns the negative code `-1` and leaves the whole process state,
including the live bridge object, unchanged. -/
theorem initStatic_second_call_fails (g : GlobalState) (inst : CDotNetInterface)
    (interfaceId : Int) (h : g.gInterface = some inst) :
    initStatic g interfaceId = (-1, g) ∧ (-1 : Int) < 0 := by
  obtain ⟨gi, rc⟩ := g
  simp only at h
  subst h
  exact ⟨rfl, by decide⟩

/-- Witness for C2 at a concrete state holding a live bridge. -/
theorem initStatic_second_call_fails_witness :
    ({ gInterface := some (CDotNetInterface.initFresh 3), runtimeCalls := [] } :
      GlobalState).gInterface = some (CDotNetInterface.initFresh 3) ∧
    initStatic
      { gInterface := some (CDotNetInterface.initFresh 3), runtimeCalls := [] } 7 =
      (-1, { gInterface := some (CDotNetInterface.initFresh 3), runtimeCalls := [] }) :=
  ⟨rfl, (initStatic_second_call_fails _ (CDotNetInterface.initFresh 3) 7 rfl).1⟩

/-- C3: for an id not in the registry, `CreateAIInstance` succeeds (code `0`)
and an immediately following `DestroyAIInstance` of the same id succeeds and
returns the object, registry included, to exactly its prior state. -/
theorem create_destroy_roundtrip (st : CDotNetInterface) (skirmishAIId : Int)
    (shortName version : String)
    (h : st.loadedAIs.find? skirmishAIId = none) :
    (CreateAIInstance st skirmishAIId shortName version).1 = 0 ∧
    (DestroyAIInstance (CreateAIInstance st skirmishAIId shortName version).2
      skirmishAIId).1 = 0 ∧
    (DestroyAIInstance (CreateAIInstance st skirmishAIId shortName version).2
      skirmishAIId).2 = st := by
  have hempty : ¬ (FindAIAssembly shortName version = "") := by
    simp [FindAIAssembly]
  have hcreate : CreateAIInstance st skirmishAIId shortName version =
      (0, { st with loadedAIs := (Registry.insert st.loadedAIs skirmishAIId ⟨shortName, version, FindAIAssembly shortName version, none⟩) }) := by
    simp only [CreateAIInstance, h, Option.isSome_none, Bool.false_eq_true,
      if_false, if_neg hempty]
  rw [hcreate]
  have hfind := Registry.find?_insert_self st.loadedAIs skirmishAIId
    ⟨shortName, version, FindAIAssembly shortName version, none⟩
  refine ⟨rfl, ?_, ?_⟩ <;>
    · simp only [DestroyAIInstance, hfind,
        Registry.erase_insert_of_not_mem _ _ _ h]

/-- Witness for C3: create then destroy of id 42 on an empty bridge restores
the empty bridge. -/
theorem create_destroy_roundtrip_witness :
    (({ interfaceId := 0, loadedAIs := [], dotnetRuntimeLoaded := false,
        dotnetRuntimeHandle := none } : CDotNetInterface).loadedAIs.find? 42 =
      none) ∧
    (DestroyAIInstance
      (CreateAIInstance
        { interfaceId := 0, loadedAIs := [], dotnetRuntimeLoaded := false,
          dotnetRuntimeHandle := none } 42 "ExampleDotNetAI" "1.0").2 42).2 =
      { interfaceId := 0, loadedAIs := [], dotnetRuntimeLoaded := false,
        dotnetRuntimeHandle := none } :=
  ⟨rfl,
    (create_destroy_roundtrip
      { interfaceId := 0, loadedAIs := [], dotnetRuntimeLoaded := false,
        dotnetRuntimeHandle := none } 42 "ExampleDotNetAI" "1.0" rfl).2.2⟩

/-- C4: a second `CreateAIInstance` with an id already in the registry
returns `-1` (distinct from the assembly-not-found code `-2`) and leaves the
object, in particular the record stored under the id, unchanged. -/
theorem create_existing_id_rejected (st : CDotNetInterface) (skirmishAIId : Int)
    (info : AIInfo) (shortName version : String)
    (h : st.loadedAIs.find? skirmishAIId = some info) :
    CreateAIInstance st skirmishAIId shortName version = (-1, st) ∧
    (CreateAIInstance st skirmishAIId shortName version).2.loadedAIs.find?
      skirmishAIId = some info ∧
    (-1 : Int) ≠ -2 := by
  have h1 : CreateAIInstance st skirmishAIId shortName version = (-1, st) := by
    simp [CreateAIInstance, h]
  exact ⟨h1, by rw [h1]; exact h, by decide⟩

/-- Witness for C4 at a registry holding id 5. -/
theorem create_existing_id_rejected_witness :
    (({ interfaceId := 1,
        loadedAIs := [(5, ⟨"A", "1.0", "SpringAI.Wrapper.dll", none⟩)],
        dotnetRuntimeLoaded := false, dotnetRuntimeHandle := none } :
        CDotNetInterface).loadedAIs.find? 5 =
      some ⟨"A", "1.0", "SpringAI.Wrapper.dll", none⟩) ∧
    CreateAIInstance
      { interfaceId := 1,
        loadedAIs := [(5, ⟨"A", "1.0", "SpringAI.Wrapper.dll", none⟩)],
        dotnetRuntimeLoaded := false, dotnetRuntimeHandle := none } 5 "A" "1.0" =
      (-1,
        { interfaceId := 1,
          loadedAIs := [(5, ⟨"A", "1.0", "SpringAI.Wrapper.dll", none⟩)],
          dotnetRuntimeLoaded := false, dotnetRuntimeHandle := none }) :=
  ⟨rfl,
    (create_existing_id_rejected
      { interfaceId := 1,
        loadedAIs := [(5, ⟨"A", "1.0", "SpringAI.Wrapper.dll", none⟩)],
        dotnetRuntimeLoaded := false, dotnetRuntimeHandle := none } 5
      ⟨"A", "1.0", "SpringAI.Wrapper.dll", none⟩ "A" "1.0" rfl).1⟩

/-- C5: with the bridge initialized, `HandleEvent` for an id not in the
registry returns `-2`, leaves the whole process state (registry included)
unchanged, and forwards nothing into the hosted runtime (the trace of
runtime calls is exactly what it was). Holds for every topic and payload. -/
theorem handleEvent_unknown_id (g : GlobalState) (inst : CDotNetInterface)
    (skirmishAIId topicId : Int) (data : List UInt8)
    (h1 : g.gInterface = some inst)
    (h2 : Registry.find? inst.loadedAIs skirmishAIId = none) :
    HandleEvent g skirmishAIId topicId data = (-2, g) ∧
    (HandleEvent g skirmishAIId topicId data).2.runtimeCalls = g.runtimeCalls := by
  obtain ⟨gi, rc⟩ := g
  simp only at h1
  subst h1
  have : HandleEvent ⟨some inst, rc⟩ skirmishAIId topicId data = (-2, ⟨some inst, rc⟩) := by
    simp only [HandleEvent, h2]
  exact ⟨this, by rw [this]⟩

/-- Witness for C5 at a live bridge whose registry is empty. -/
theorem handleEvent_unknown_id_witness :
    (({ gInterface := some ⟨2, [], false, none⟩, runtimeCalls := [] } :
      GlobalState).gInterface = some ⟨2, [], false, none⟩) ∧
    (Registry.find? (⟨2, [], false, none⟩ : CDotNetInterface).loadedAIs 9 = none) ∧
    HandleEvent { gInterface := some ⟨2, [], false, none⟩, runtimeCalls := [] } 9 5 [] =
      (-2, { gInterface := some ⟨2, [], false, none⟩, runtimeCalls := [] }) :=
  ⟨rfl, rfl,
    (handleEvent_unknown_id
      { gInterface := some ⟨2, [], false, none⟩, runtimeCalls := [] }
      ⟨2, [], false, none⟩ 9 5 [] rfl rfl).1⟩

/-- C6: with the bridge initialized, `unloadAllSkirmishAILibraries` returns
`0` and leaves the registry empty, and an immediately following second call
again returns `0` with the registry still empty. -/
theorem unloadAll_idempotent (g : GlobalState) (inst : CDotNetInterface)
    (h : g.gInterface = some inst) :
    (unloadAllSkirmishAILibrariesExported g).1 = 0 ∧
    (∃ i1, (unloadAllSkirmishAILibrariesExported g).2.gInterface = some i1 ∧
      i1.loadedAIs = []) ∧
    (unloadAllSkirmishAILibrariesExported
      (unloadAllSkirmishAILibrariesExported g).2).1 = 0 ∧
    (∃ i2, (unloadAllSkirmishAILibrariesExported
      (unloadAllSkirmishAILibrariesExported g).2).2.gInterface = some i2 ∧
      i2.loadedAIs = []) := by
  obtain ⟨gi, rc⟩ := g
  simp only at h
  subst h
  refine ⟨?_, ⟨(UnloadAllSkirmishAILibraries inst).2, rfl, rfl⟩, ?_, ?_⟩
  · rfl
  · rfl
  · exact ⟨_, rfl, rfl⟩

/-- Witness for C6 at a live bridge holding one instance record. -/
theorem unloadAll_idempotent_witness :
    (({ gInterface := some ⟨1, [(5, ⟨"A", "1.0", "SpringAI.Wrapper.dll", none⟩)], false, none⟩,
        runtimeCalls := [] } : GlobalState).gInterface =
      some ⟨1, [(5, ⟨"A", "1.0", "SpringAI.Wrapper.dll", none⟩)], false, none⟩) ∧
    (unloadAllSkirmishAILibrariesExported
      { gInterface := some ⟨1, [(5, ⟨"A", "1.0", "SpringAI.Wrapper.dll", none⟩)], false, none⟩,
        runtimeCalls := [] }).1 = 0 :=
  ⟨rfl,
    (unloadAll_idempotent
      { gInterface := some ⟨1, [(5, ⟨"A", "1.0", "SpringAI.Wrapper.dll", none⟩)], false, none⟩,
        runtimeCalls := [] }
      ⟨1, [(5, ⟨"A", "1.0", "SpringAI.Wrapper.dll", none⟩)], false, none⟩ rfl).1⟩

/-- C8: with the bridge initialized, the exported `unloadSkirmishAILibrary`
returns `0` for every (shortName, version) and leaves the whole process
state, in particular every live InstanceRecord in the registry, unchanged. -/
theorem unloadLibrary_keeps_instances (g : GlobalState) (inst : CDotNetInterface)
    (shortName version : String) (h : g.gInterface = some inst) :
    unloadSkirmishAILibraryExported g shortName version = (0, g) := by
  obtain ⟨gi, rc⟩ := g
  simp only at h
  subst h
  rfl

/-- Witness for C8 at a live bridge holding one instance record. -/
theorem unloadLibrary_keeps_instances_witness :
    (({ gInterface := some ⟨1, [(7, ⟨"B", "2.0", "SpringAI.Wrapper.dll", none⟩)], false, none⟩,
        runtimeCalls := [] } : GlobalState).gInterface =
      some ⟨1, [(7, ⟨"B", "2.0", "SpringAI.Wrapper.dll", none⟩)], false, none⟩) ∧
    unloadSkirmishAILibraryExported
      { gInterface := some ⟨1, [(7, ⟨"B", "2.0", "SpringAI.Wrapper.dll", none⟩)], false, none⟩,
        runtimeCalls := [] } "B" "2.0" =
      (0,
        { gInterface := some ⟨1, [(7, ⟨"B", "2.0", "SpringAI.Wrapper.dll", none⟩)], false, none⟩,
          runtimeCalls := [] }) :=
  ⟨rfl,
    unloadLibrary_keeps_instances
      { gInterface := some ⟨1, [(7, ⟨"B", "2.0", "SpringAI.Wrapper.dll", none⟩)], false, none⟩,
        runtimeCalls := [] }
      ⟨1, [(7, ⟨"B", "2.0", "SpringAI.Wrapper.dll", none⟩)], false, none⟩ "B" "2.0" rfl⟩

/-- C9: `getLevelOfSupportFor` returns `LOS_Working` for every engine version
string, engine version number, interface short name and interface version. -/
theorem getLevelOfSupportFor_always_working (engineVersionString : String)
    (engineVersionNumber : Int) (aiInterfaceShortName : String)
    (aiInterfaceVersion : String) :
    getLevelOfSupportFor engineVersionString engineVersionNumber
      aiInterfaceShortName aiInterfaceVersion = LevelOfSupport.LOS_Working :=
  rfl

/-- C1 (counterexample evaluation): for a (shortName, version) with no
corresponding assembly on disk, `FindAIAssembly` does not signal NotFound
(the empty string) but returns the placeholder path, and `CreateAIInstance`
consequently returns `0` (not `-2`) and inserts an InstanceRecord. -/
theorem findAIAssembly_placeholder_not_notfound :
    FindAIAssembly "NoSuchAI" "9.9" = "SpringAI.Wrapper.dll" ∧
    (CreateAIInstance ⟨0, [], false, none⟩ 7 "NoSuchAI" "9.9").1 = 0 ∧
    Registry.find?
      (CreateAIInstance ⟨0, [], false, none⟩ 7 "NoSuchAI" "9.9").2.loadedAIs 7 =
      some ⟨"NoSuchAI", "9.9", "SpringAI.Wrapper.dll", none⟩ := by
  refine ⟨rfl, ?_, ?_⟩ <;> decide

/-- C10: the value returned by `GetUnitsInRadius` is at least `0`, equals the
number of entries written to `resultIds`, is at most
`min unitCount maxResults` whenever those are positive, and the function
returns `0` and writes nothing when `allUnits` or `resultIds` is null or
`unitCount` or `maxResults` is non-positive. -/
theorem getUnitsInRadius_bounds (allUnits : Option (List CUnit))
    (unitCount : Int) (centerX centerY centerZ radius : Float)
    (resultIdsPresent : Bool) (maxResults : Int) :
    0 ≤ (GetUnitsInRadius allUnits unitCount centerX centerY centerZ radius
      resultIdsPresent maxResults).1 ∧
    (GetUnitsInRadius allUnits unitCount centerX centerY centerZ radius
      resultIdsPresent maxResults).1 =
      ((GetUnitsInRadius allUnits unitCount centerX centerY centerZ radius
        resultIdsPresent maxResults).2.length : Int) ∧
    (0 < unitCount → 0 < maxResults →
      (GetUnitsInRadius allUnits unitCount centerX centerY centerZ radius
        resultIdsPresent maxResults).1 ≤ min unitCount maxResults) ∧
    ((allUnits = none ∨ resultIdsPresent = false ∨ unitCount ≤ 0 ∨
        maxResults ≤ 0) →
      GetUnitsInRadius allUnits unitCount centerX centerY centerZ radius
        resultIdsPresent maxResults = (0, [])) := by
  match allUnits with
  | none =>
    refine ⟨le_refl 0, rfl, ?_, fun _ => rfl⟩
    intro hu hm
    simp only [GetUnitsInRadius]
    omega
  | some units =>
    simp only [GetUnitsInRadius]
    by_cases hguard : resultIdsPresent = false ∨ unitCount ≤ 0 ∨ maxResults ≤ 0
    · rw [if_pos hguard]
      refine ⟨le_refl 0, rfl, ?_, fun _ => rfl⟩
      intro hu hm
      simp only
      omega
    · rw [if_neg hguard]
      have hu : 0 < unitCount := by omega
      have hm : 0 < maxResults := by omega
      have hlen := unitsLoop_length_le units unitCount.toNat centerX centerY
        centerZ (radius * radius) maxResults.toNat
      refine ⟨by positivity, rfl, ?_, ?_⟩
      · intro _ _
        simp only
        omega
      · intro hcase
        rcases hcase with hc | hc | hc | hc
        · exact Option.noConfusion hc
        · exact absurd (Or.inl hc) hguard
        · exact absurd (Or.inr (Or.inl hc)) hguard
        · exact absurd (Or.inr (Or.inr hc)) hguard

/-- Witness for C10: two units, capacity one, so the count bound `min 2 1`
is exercised at a concrete call. -/
theorem getUnitsInRadius_bounds_witness :
    (0 : Int) < 2 ∧ (0 : Int) < 1 ∧
    (GetUnitsInRadius
      (some [⟨1, 101, 1.0, 0.0, 1.0, 100.0, 100.0, 0, 1⟩,
             ⟨2, 102, 2.0, 0.0, 2.0, 100.0, 100.0, 0, 1⟩])
      2 0.0 0.0 0.0 50.0 true 1).1 ≤ min 2 1 :=
  ⟨by decide, by decide,
    (getUnitsInRadius_bounds
      (some [⟨1, 101, 1.0, 0.0, 1.0, 100.0, 100.0, 0, 1⟩,
             ⟨2, 102, 2.0, 0.0, 2.0, 100.0, 100.0, 0, 1⟩])
      2 0.0 0.0 0.0 50.0 true 1).2.2.1 (by decide) (by decide)⟩

end DotNetBridge
